import Mathlib

/-!
Verification of the process-and-protocol supervisor of `src/main.py`
(xqemu-manager). The Python code is shallowly embedded: the filesystem,
the spawn boundary and the control endpoint are oracles supplied as
explicit parameters; the `Xqemu` object's mutable fields `_p` and `_qmp`
become an explicit state record, and side effects (spawned processes,
sleeps, wire requests) are returned as explicit traces.
-/

/-- Filesystem oracle: what `os.path.exists` and `os.path.isdir` answer. -/
structure FS where
  pathExists : String → Bool
  isDir : String → Bool

/-- The configuration record consumed by `Xqemu.start`
(`settings.settings[...]` in `main.py`). -/
structure Settings where
  xqemu_path : String
  mcpx_path : String
  flash_path : String
  hdd_path : String
  hdd_locked : Bool
  dvd_present : Bool
  dvd_path : String
  short_anim : Bool
deriving Repr, DecidableEq

/-- Embeds `main.py` line 103: the validation error message raised by `check_path`. -/
def pathMsg (path : String) : String :=
  "File " ++ path ++ " could not be found!"

/-- Embeds `main.py` lines 101-103:
`if not os.path.exists(path) or os.path.isdir(path): raise Exception(...)`. -/
def check_path (fs : FS) (path : String) : Except String Unit :=
  if !fs.pathExists path || fs.isDir path then
    Except.error (pathMsg path)
  else
    Except.ok ()

/-- A path passes `check_path`: it exists and is not a directory. -/
def pathOk (fs : FS) (path : String) : Bool :=
  fs.pathExists path && !fs.isDir path

/-- Embeds `main.py` lines 105-118: the sequence of `check_path` calls performed by
`Xqemu.start`, in source order, with the dvd path checked only when
`dvd_present` is set.  The first raised exception aborts the sequence. -/
def validatePaths (fs : FS) (s : Settings) : Except String Unit :=
  match check_path fs s.xqemu_path with
  | Except.error e => Except.error e
  | Except.ok _ =>
  match check_path fs s.mcpx_path with
  | Except.error e => Except.error e
  | Except.ok _ =>
  match check_path fs s.flash_path with
  | Except.error e => Except.error e
  | Except.ok _ =>
  match check_path fs s.hdd_path with
  | Except.error e => Except.error e
  | Except.ok _ =>
  if s.dvd_present then check_path fs s.dvd_path else Except.ok ()

/-- Embeds `main.py` lines 113-131: the qemu launch argument vector built by
`Xqemu.start` (each list element is one discrete argv entry). -/
def buildCmd (s : Settings) : List String :=
  let short_anim_arg := if s.short_anim then ",short_animation" else ""
  let hdd_lock_arg := if s.hdd_locked then ",locked" else ""
  let dvd_path_arg := if s.dvd_present then ",file=" ++ s.dvd_path else ""
  [ s.xqemu_path,
    "-cpu", "pentium3",
    "-machine", "xbox,bootrom=" ++ s.mcpx_path ++ short_anim_arg,
    "-m", "64",
    "-bios", s.flash_path,
    "-net", "nic,model=nvnet",
    "-net", "user",
    "-drive", "file=" ++ s.hdd_path ++ ",index=0,media=disk" ++ hdd_lock_arg,
    "-drive", "index=1,media=cdrom" ++ dvd_path_arg,
    "-qmp", "tcp:localhost:4444,server,nowait" ]

/-- Observable outcome of the connect-with-retry loop: how many connection
attempts were made, how many one-second sleeps were performed, and the
result (`ok i` = the zero-based index of the successful attempt,
`error e` = the re-raised error of the last attempt). -/
structure ConnectTrace where
  attempts : Nat
  sleeps : Nat
  result : Except String Nat

/-- Embeds `main.py` lines 143-156, the loop body starting at counter value `i`:
`if i > 0: time.sleep(1)`; try to connect (oracle `attempt i`); on failure
re-raise when `i > 4`, otherwise increment `i` and continue. -/
def connectFrom (attempt : Nat → Except String Unit) (i : Nat) : ConnectTrace :=
  let sleepHere : Nat := if i > 0 then 1 else 0
  match attempt i with
  | Except.ok _ => ⟨1, sleepHere, Except.ok i⟩
  | Except.error e =>
    if _h : i > 4 then
      ⟨1, sleepHere, Except.error e⟩
    else
      let rest := connectFrom attempt (i + 1)
      ⟨rest.attempts + 1, sleepHere + rest.sleeps, rest.result⟩
termination_by 5 - i
decreasing_by omega

/-- The whole retry loop of `Xqemu.start`, entered with `i = 0`. -/
def connectLoop (attempt : Nat → Except String Unit) : ConnectTrace :=
  connectFrom attempt 0

/-- A QMP request object: `{"execute": ..., "arguments": {...}}`. -/
structure Req where
  execute : String
  arguments : List (String × String)
deriving Repr, DecidableEq

/-- Argument of `Xqemu.run_cmd`: either a bare command-name string or an
already-built request object. -/
inductive Cmd where
  | str (s : String)
  | obj (r : Req)

/-- Embeds `main.py` lines 164-168: a string command is wrapped as
`{"execute": cmd, "arguments": {}}`; a dict is passed through. -/
def reqOf : Cmd → Req
  | Cmd.str s => ⟨s, []⟩
  | Cmd.obj r => r

/-- JSON-ish values appearing in QMP responses. -/
inductive J where
  | s (v : String)
  | o (fields : List (String × J))

/-- Python dict indexing `j[k]` on a decoded JSON object
(`none` models the KeyError / TypeError cases). -/
def J.index (j : J) (k : String) : Option J :=
  match j with
  | J.o fields => fields.lookup k
  | J.s _ => none

/-- Python `j == 'v'` for a decoded JSON value against a string literal. -/
def J.isStr (j : J) (v : String) : Bool :=
  match j with
  | J.s w => w == v
  | J.o _ => false

/-- Embeds `main.py` lines 163-172 (`Xqemu.run_cmd`): build the request object,
hand it to the wire layer (`respond`, modelling `qmp.cmd_obj` — which is
external to `src/`; Modelled from the spec: it writes the serialized
request and reads exactly one response object, returning `None` on
disconnection), and raise `Disconnected!` when the response is `None`. -/
def runCmd (respond : Req → Option J) (cmd : Cmd) : Except String J :=
  match respond (reqOf cmd) with
  | none => Except.error "Disconnected!"
  | some resp => Except.ok resp

/-- Embeds `main.py` lines 192-194 (`Xqemu.isPaused`):
`resp['return']['status'] == 'paused'`, with `KeyError` when a field is
missing from the response. -/
def Xqemu.isPaused (respond : Req → Option J) : Except String Bool :=
  match runCmd respond (Cmd.str "query-status") with
  | Except.error e => Except.error e
  | Except.ok resp =>
    match resp.index "return" with
    | none => Except.error "KeyError"
    | some ret =>
      match ret.index "status" with
      | none => Except.error "KeyError"
      | some st => Except.ok (st.isStr "paused")

/-- Embeds `main.py` lines 183-190: the request object built by `Xqemu.screenshot`
(the filename is the hardcoded literal, there is no parameter). -/
def screenshotCmd : Req :=
  ⟨"screendump", [("filename", "screenshot.ppm")]⟩

/-- The mutable fields of the `Xqemu` object: `_p` (process handle, here a
pid) and `_qmp` (control client; `some b` = a `QEMUMonitorProtocol` object
exists, `b` = its `connect()` call succeeded). -/
structure XqemuState where
  p : Option Nat
  qmp : Option Bool
deriving Repr, DecidableEq

/-- Embeds `main.py` lines 196-198: `isRunning` is `self._p is not None`. -/
def isRunning (st : XqemuState) : Bool :=
  st.p.isSome

/-- Environment oracles for one `start` call: the filesystem, whether
`subprocess.Popen` succeeds on the given argument vector, and the outcome
of each indexed connection attempt (`QEMUMonitorProtocol(...).connect()`). -/
structure World where
  fs : FS
  spawnOk : List String → Bool
  connAttempt : Nat → Except String Unit

/-- Application-level state: the `Xqemu` instance's fields plus bookkeeping
of the child processes that are currently alive and a fresh-pid counter. -/
structure AppState where
  inst : XqemuState
  liveProcs : List Nat
  nextPid : Nat
deriving Repr, DecidableEq

/-- The stage at which `Xqemu.start` raised. -/
inductive StartErr where
  | validation (msg : String)
  | spawnFail
  | connectFail (msg : String)
deriving Repr, DecidableEq

/-- Observable side effects of supervisor operations. -/
inductive Effect where
  | terminate (pid : Nat)
  | disconnect
deriving Repr, DecidableEq

/-- Embeds `main.py` lines 100-156 (`Xqemu.start`): validate the paths (raising on
the first bad one, state untouched), build the argument vector, spawn via
`subprocess.Popen` (on failure the assignment to `self._p` never happens),
then run the connect-retry loop.  Each loop iteration assigns a fresh
`QEMUMonitorProtocol` object to `self._qmp` before calling `connect()`, so
on final failure `_qmp` holds an unconnected object (`some false`) and
`_p` still holds the spawned process; on success `_qmp` is connected
(`some true`). -/
def Xqemu.start (w : World) (s : Settings) (a : AppState) :
    AppState × Except StartErr Unit :=
  match validatePaths w.fs s with
  | Except.error msg => (a, Except.error (StartErr.validation msg))
  | Except.ok _ =>
    let cmd := buildCmd s
    if w.spawnOk cmd then
      let pid := a.nextPid
      let a1 : AppState :=
        { inst := { p := some pid, qmp := a.inst.qmp },
          liveProcs := a.liveProcs ++ [pid],
          nextPid := pid + 1 }
      match (connectLoop w.connAttempt).result with
      | Except.ok _ =>
          ({ a1 with inst := { a1.inst with qmp := some true } }, Except.ok ())
      | Except.error e =>
          ({ a1 with inst := { a1.inst with qmp := some false } },
           Except.error (StartErr.connectFail e))
    else
      (a, Except.error StartErr.spawnFail)

/-- Embeds `main.py` lines 158-161 (`Xqemu.stop`): if `self._p` is set, call
`terminate()` on it (the process dies, leaving `liveProcs`) and set
`self._p = None`.  Nothing else happens: `_qmp` is neither disconnected
nor cleared, and with `_p` unset the call is a no-op. -/
def Xqemu.stop (a : AppState) : AppState × List Effect :=
  match a.inst.p with
  | some pid =>
      ({ inst := { p := none, qmp := a.inst.qmp },
         liveProcs := a.liveProcs.filter (fun q => q != pid),
         nextPid := a.nextPid },
       [Effect.terminate pid])
  | none => (a, [])

/-- The discrete user actions that drive the `MainWindow` handlers. -/
inductive Event where
  | runClick
  | pauseClick
  | screenshotClick
  | restartClick

/-- Embeds `main.py` lines 219-230 (`MainWindow.onRunButtonClicked`) and the other
button handlers, restricted to their effect on process/handle state:
the run button starts when `isRunning` is false and stops otherwise
(a raised start error is caught by the handler, keeping the state the
exception left behind); the pause / screenshot / restart handlers only
exchange protocol messages and never touch `_p` or the process set. -/
def step (w : World) (s : Settings) (e : Event) (a : AppState) : AppState :=
  match e with
  | Event.runClick =>
      if isRunning a.inst then (Xqemu.stop a).1 else (Xqemu.start w s a).1
  | Event.pauseClick => a
  | Event.screenshotClick => a
  | Event.restartClick => a

/-- Embeds `main.py` lines 96-98 (`Xqemu.__init__`) and 204: the application starts
with `_p = None`, `_qmp = None`, no live child process. -/
def initialApp : AppState :=
  { inst := { p := none, qmp := none }, liveProcs := [], nextPid := 0 }

/-- Application states reachable from `initialApp` by any sequence of button
events, under arbitrary environments and settings. -/
inductive Reachable : AppState → Prop where
  | init : Reachable initialApp
  | next (w : World) (s : Settings) (e : Event) (a : AppState) :
      Reachable a → Reachable (step w s e a)

/-- The spec's `EmulatorState` (§3), derived from the embedded state:
`Stopped` iff no process handle is owned; with a handle owned, `Running`
or `Paused` according to the emulator's paused flag. -/
inductive SupState where
  | Stopped
  | Running
  | Paused
deriving Repr, DecidableEq

/-- Map the embedded state (plus the emulator's paused flag) to the spec's
state machine. -/
def superState (st : XqemuState) (paused : Bool) : SupState :=
  match st.p with
  | none => SupState.Stopped
  | some _ => if paused then SupState.Paused else SupState.Running

/-- Modelled from the spec: the emulator endpoint's response behavior (QMP,
spec §4.4/§6), which is external to `src/` — `query-status` answers with a
`return` object whose `status` field is `"paused"` or `"running"`; every
other command answers with an empty `return` object. -/
def emuRespond (paused : Bool) (r : Req) : Option J :=
  if r.execute == "query-status" then
    some (J.o [("return",
      J.o [("status", J.s (if paused then "paused" else "running"))])])
  else
    some (J.o [("return", J.o [])])

/-- Modelled from the spec: the effect of a QMP command on the emulator's
paused flag (spec §4.4 — command "stop" pauses emulation, command "cont"
resumes; everything else leaves it unchanged). -/
def emuStep (paused : Bool) (r : Req) : Bool :=
  if r.execute == "stop" then true
  else if r.execute == "cont" then false
  else paused

/-- Embeds `main.py` lines 232-242 (`MainWindow.onPauseButtonClicked`), with the
wire requests made explicit: return immediately when `isRunning` is false;
otherwise ask `isPaused()` (one `query-status` request against the
emulator) and then issue `cont` (`Xqemu.cont`) when paused or `stop`
(`Xqemu.pause`) when not.  Returns the request trace and the emulator's
new paused flag. -/
def onPauseButtonClicked (st : XqemuState) (paused : Bool) :
    List Req × Bool :=
  if !(isRunning st) then ([], paused)
  else
    match Xqemu.isPaused (emuRespond paused) with
    | Except.error _ => ([reqOf (Cmd.str "query-status")], paused)
    | Except.ok true =>
        ([reqOf (Cmd.str "query-status"), reqOf (Cmd.str "cont")],
         emuStep paused (reqOf (Cmd.str "cont")))
    | Except.ok false =>
        ([reqOf (Cmd.str "query-status"), reqOf (Cmd.str "stop")],
         emuStep paused (reqOf (Cmd.str "stop")))

/-- Embeds `main.py` lines 244-246 (`MainWindow.onScreenshotButtonClicked`): return
immediately when `isRunning` is false, otherwise send the (hardcoded)
`screendump` request.  Returns the request trace and the (unchanged)
instance state. -/
def onScreenshotButtonClicked (st : XqemuState) : List Req × XqemuState :=
  if !(isRunning st) then ([], st)
  else ([screenshotCmd], st)

/-- The files the emulator is asked to write by a request trace: the
`filename` argument of each `screendump` request. -/
def filesWritten (reqs : List Req) : List String :=
  reqs.filterMap (fun r =>
    if r.execute == "screendump" then r.arguments.lookup "filename" else none)

/-! ### Concrete fixtures used by witnesses and counterexamples -/

/-- A filesystem on which every path is an existing regular file. -/
def fsAll : FS := ⟨fun _ => true, fun _ => false⟩

/-- A filesystem on which exactly the path "/bad" is missing. -/
def fsBad : FS := ⟨fun p => p != "/bad", fun _ => false⟩

/-- A sample configuration whose paths all exist on `fsAll` / `fsBad`. -/
def s0 : Settings :=
  { xqemu_path := "/bin/xqemu", mcpx_path := "/roms/mcpx.bin",
    flash_path := "/roms/flash.bin", hdd_path := "/img/hdd.img",
    hdd_locked := true, dvd_present := true, dvd_path := "/img/disc.iso",
    short_anim := false }

/-- An environment in which validation and spawn succeed but the control
endpoint never becomes reachable. -/
def wConnFail : World :=
  ⟨fsAll, fun _ => true, fun _ => Except.error "refused"⟩

/-- An environment in which validation, spawn and the first connection
attempt all succeed. -/
def wOk : World := ⟨fsAll, fun _ => true, fun _ => Except.ok ()⟩

/-! ### Helper lemmas on the connect-retry loop -/

/-- Unfolding `connectFrom` once when attempt `i` succeeds. -/
theorem connectFrom_ok (attempt : Nat → Except String Unit) (i : Nat)
    (h : attempt i = Except.ok ()) :
    connectFrom attempt i = ⟨1, if i > 0 then 1 else 0, Except.ok i⟩ := by
  rw [connectFrom, h]

/-- Unfolding `connectFrom` once when attempt `i` fails and retries remain. -/
theorem connectFrom_retry (attempt : Nat → Except String Unit) (i : Nat)
    (e : String) (h : attempt i = Except.error e) (hi : i ≤ 4) :
    connectFrom attempt i =
      ⟨(connectFrom attempt (i + 1)).attempts + 1,
       (if i > 0 then 1 else 0) + (connectFrom attempt (i + 1)).sleeps,
       (connectFrom attempt (i + 1)).result⟩ := by
  rw [connectFrom, h]
  simp only [dif_neg (by omega : ¬ i > 4)]

/-- Unfolding `connectFrom` at the last allowed counter value `i = 5`:
the failure is re-raised. -/
theorem connectFrom_raise (attempt : Nat → Except String Unit)
    (e : String) (h : attempt 5 = Except.error e) :
    connectFrom attempt 5 = ⟨1, 1, Except.error e⟩ := by
  rw [connectFrom, h]
  simp

/-- When every attempt up to counter 5 fails, the loop makes 6 attempts and
5 sleeps and re-raises the error of the last attempt. -/
theorem connectLoop_all_fail (attempt : Nat → Except String Unit)
    (errs : Nat → String)
    (h : ∀ k, k ≤ 5 → attempt k = Except.error (errs k)) :
    connectLoop attempt = ⟨6, 5, Except.error (errs 5)⟩ := by
  rw [connectLoop,
    connectFrom_retry _ 0 _ (h 0 (by omega)) (by omega),
    connectFrom_retry _ 1 _ (h 1 (by omega)) (by omega),
    connectFrom_retry _ 2 _ (h 2 (by omega)) (by omega),
    connectFrom_retry _ 3 _ (h 3 (by omega)) (by omega),
    connectFrom_retry _ 4 _ (h 4 (by omega)) (by omega),
    connectFrom_raise _ _ (h 5 (by omega))]
  rfl

/-- When the first succeeding attempt is attempt `n` (zero-based, `n ≤ 5`),
the loop makes `n + 1` attempts and `n` sleeps and reports success. -/
theorem connectLoop_first_ok (attempt : Nat → Except String Unit) (n : Nat)
    (hn : n ≤ 5)
    (hfail : ∀ k, k < n → ∃ e, attempt k = Except.error e)
    (hok : attempt n = Except.ok ()) :
    connectLoop attempt = ⟨n + 1, n, Except.ok n⟩ := by
  interval_cases n
  · rw [connectLoop, connectFrom_ok _ 0 hok]
    rfl
  · obtain ⟨e0, h0⟩ := hfail 0 (by omega)
    rw [connectLoop, connectFrom_retry _ 0 _ h0 (by omega),
      connectFrom_ok _ 1 hok]
    rfl
  · obtain ⟨e0, h0⟩ := hfail 0 (by omega)
    obtain ⟨e1, h1⟩ := hfail 1 (by omega)
    rw [connectLoop, connectFrom_retry _ 0 _ h0 (by omega),
      connectFrom_retry _ 1 _ h1 (by omega), connectFrom_ok _ 2 hok]
    rfl
  · obtain ⟨e0, h0⟩ := hfail 0 (by omega)
    obtain ⟨e1, h1⟩ := hfail 1 (by omega)
    obtain ⟨e2, h2⟩ := hfail 2 (by omega)
    rw [connectLoop, connectFrom_retry _ 0 _ h0 (by omega),
      connectFrom_retry _ 1 _ h1 (by omega),
      connectFrom_retry _ 2 _ h2 (by omega), connectFrom_ok _ 3 hok]
    rfl
  · obtain ⟨e0, h0⟩ := hfail 0 (by omega)
    obtain ⟨e1, h1⟩ := hfail 1 (by omega)
    obtain ⟨e2, h2⟩ := hfail 2 (by omega)
    obtain ⟨e3, h3⟩ := hfail 3 (by omega)
    rw [connectLoop, connectFrom_retry _ 0 _ h0 (by omega),
      connectFrom_retry _ 1 _ h1 (by omega),
      connectFrom_retry _ 2 _ h2 (by omega),
      connectFrom_retry _ 3 _ h3 (by omega), connectFrom_ok _ 4 hok]
    rfl
  · obtain ⟨e0, h0⟩ := hfail 0 (by omega)
    obtain ⟨e1, h1⟩ := hfail 1 (by omega)
    obtain ⟨e2, h2⟩ := hfail 2 (by omega)
    obtain ⟨e3, h3⟩ := hfail 3 (by omega)
    obtain ⟨e4, h4⟩ := hfail 4 (by omega)
    rw [connectLoop, connectFrom_retry _ 0 _ h0 (by omega),
      connectFrom_retry _ 1 _ h1 (by omega),
      connectFrom_retry _ 2 _ h2 (by omega),
      connectFrom_retry _ 3 _ h3 (by omega),
      connectFrom_retry _ 4 _ h4 (by omega), connectFrom_ok _ 5 hok]
    rfl

/-! ### Evaluation lemmas for `Xqemu.start`, one per control path -/

/-- Evaluates `start` when some `check_path` raises: nothing has been assigned yet. -/
theorem start_validation_error (w : World) (s : Settings) (a : AppState)
    (m : String) (hv : validatePaths w.fs s = Except.error m) :
    Xqemu.start w s a = (a, Except.error (StartErr.validation m)) := by
  unfold Xqemu.start
  rw [hv]

/-- Evaluates `start` when validation passes but `subprocess.Popen` raises: the
assignment to `_p` never happened, state unchanged. -/
theorem start_spawn_fail (w : World) (s : Settings) (a : AppState)
    (hv : validatePaths w.fs s = Except.ok ())
    (hs : w.spawnOk (buildCmd s) = false) :
    Xqemu.start w s a = (a, Except.error StartErr.spawnFail) := by
  unfold Xqemu.start
  rw [hv]
  simp only [hs, Bool.false_eq_true, if_false]

/-- Evaluates `start` when validation and spawn succeed and the retry loop connects. -/
theorem start_spawned_connected (w : World) (s : Settings) (a : AppState)
    (k : Nat) (hv : validatePaths w.fs s = Except.ok ())
    (hs : w.spawnOk (buildCmd s) = true)
    (hc : (connectLoop w.connAttempt).result = Except.ok k) :
    Xqemu.start w s a =
      ({ inst := { p := some a.nextPid, qmp := some true },
         liveProcs := a.liveProcs ++ [a.nextPid], nextPid := a.nextPid + 1 },
       Except.ok ()) := by
  unfold Xqemu.start
  rw [hv]
  simp only [hs, if_true, hc]

/-- Evaluates `start` when validation and spawn succeed but the retry loop exhausts
its attempts: the raised error propagates with `_p` still holding the
spawned process and `_qmp` holding an unconnected client object. -/
theorem start_spawned_connect_fail (w : World) (s : Settings) (a : AppState)
    (e : String) (hv : validatePaths w.fs s = Except.ok ())
    (hs : w.spawnOk (buildCmd s) = true)
    (hc : (connectLoop w.connAttempt).result = Except.error e) :
    Xqemu.start w s a =
      ({ inst := { p := some a.nextPid, qmp := some false },
         liveProcs := a.liveProcs ++ [a.nextPid], nextPid := a.nextPid + 1 },
       Except.error (StartErr.connectFail e)) := by
  unfold Xqemu.start
  rw [hv]
  simp only [hs, if_true, hc]

/-- On the honest emulator oracle, `isPaused` reports the emulator's paused
flag (it sends `query-status` and reads `return.status`). -/
theorem isPaused_honest (paused : Bool) :
    Xqemu.isPaused (emuRespond paused) = Except.ok paused := by
  cases paused <;> rfl


/-! ## Claim theorems -/

/-- Claim C6 (confirmed): `run_cmd` serializes a string command as the
request object `{"execute": name, "arguments": {}}` (an already-built
object passes through unchanged), hands exactly that one request to the
wire layer, fails with the `Disconnected!` error precisely when no
response object comes back, and returns the full response object (never a
partial result) precisely when one does. -/
theorem runCmd_response_contract (respond : Req → Option J) (cmd : Cmd) :
    (∀ name, reqOf (Cmd.str name) = ⟨name, []⟩)
  ∧ (runCmd respond cmd = Except.error "Disconnected!" ↔
       respond (reqOf cmd) = none)
  ∧ (∀ r, runCmd respond cmd = Except.ok r ↔ respond (reqOf cmd) = some r) := by
  refine ⟨fun _ => rfl, ?_, fun r => ?_⟩ <;>
  · unfold runCmd
    cases respond (reqOf cmd) <;> simp

/-- Witness for C6: with a peer that closes before responding, `run_cmd`
fails with the `Disconnected!` error. -/
theorem runCmd_response_contract_witness :
    runCmd (fun _ => none) (Cmd.str "query-status")
      = Except.error "Disconnected!" :=
  ((runCmd_response_contract (fun _ => none) (Cmd.str "query-status")).2.1).mpr
    rfl

/-- Claim C7 (confirmed): when `dvd_present` is false the built argument
vector is independent of the configured disc path and its optical-drive
argument (drive index 1, media cdrom) carries no `file=` fragment; when
`dvd_present` is true that argument carries exactly the configured disc
path as its `file=` sub-flag. -/
theorem buildCmd_dvd_fragment (s : Settings) :
    (s.dvd_present = false →
       "index=1,media=cdrom" ∈ buildCmd s
       ∧ ∀ q, buildCmd { s with dvd_path := q } = buildCmd s)
  ∧ (s.dvd_present = true →
       ("index=1,media=cdrom,file=" ++ s.dvd_path) ∈ buildCmd s) := by
  constructor
  · intro h
    refine ⟨?_, fun q => ?_⟩ <;> simp [buildCmd, h]
  · intro h
    have he : ("index=1,media=cdrom,file=" ++ s.dvd_path)
        = "index=1,media=cdrom" ++ (",file=" ++ s.dvd_path) := rfl
    rw [he]
    simp [buildCmd, h]

/-- Witness for C7: both branches at concrete configurations. -/
theorem buildCmd_dvd_fragment_witness :
    "index=1,media=cdrom" ∈ buildCmd { s0 with dvd_present := false }
  ∧ ("index=1,media=cdrom,file=" ++ s0.dvd_path) ∈ buildCmd s0 := by
  constructor
  · exact ((buildCmd_dvd_fragment { s0 with dvd_present := false }).1 rfl).1
  · exact (buildCmd_dvd_fragment s0).2 rfl

/-- Counterexample for C3 as stated: `stop()` on a state owning a process
and a connected control client leaves the `_qmp` reference in place
(it is not cleared) and performs no disconnect, only a terminate. -/
theorem stop_does_not_clear_qmp_cex :
    (Xqemu.stop ⟨⟨some 3, some true⟩, [3], 4⟩).1.inst.qmp = some true
  ∧ (Xqemu.stop ⟨⟨some 3, some true⟩, [3], 4⟩).2 = [Effect.terminate 3]
  ∧ Effect.disconnect ∉ (Xqemu.stop ⟨⟨some 3, some true⟩, [3], 4⟩).2 := by
  decide

/-- Claim C3 (amended): `stop()` with a process owned requests termination
of exactly that process and clears the process handle; it performs no
control-client disconnect and leaves the `_qmp` reference unchanged;
`stop()` with no process owned — in particular a second `stop()` — is a
no-op that raises nothing and leaves no process handle. -/
theorem stop_behavior (a : AppState) :
    ((Xqemu.stop a).1.inst.p = none)
  ∧ (∀ pid, a.inst.p = some pid → (Xqemu.stop a).2 = [Effect.terminate pid])
  ∧ (a.inst.p = none → Xqemu.stop a = (a, []))
  ∧ (Effect.disconnect ∉ (Xqemu.stop a).2)
  ∧ ((Xqemu.stop a).1.inst.qmp = a.inst.qmp)
  ∧ (Xqemu.stop (Xqemu.stop a).1 = ((Xqemu.stop a).1, [])) := by
  obtain ⟨⟨p, qmp⟩, live, npid⟩ := a
  cases p <;> simp [Xqemu.stop]

/-- Witness for C3: a second `stop()` after stopping a running instance is a
no-op with no process handle left. -/
theorem stop_behavior_witness :
    (Xqemu.stop ⟨⟨some 3, some true⟩, [3], 4⟩).2 = [Effect.terminate 3]
  ∧ Xqemu.stop (Xqemu.stop ⟨⟨some 3, some true⟩, [3], 4⟩).1
      = ((Xqemu.stop ⟨⟨some 3, some true⟩, [3], 4⟩).1, []) :=
  ⟨(stop_behavior ⟨⟨some 3, some true⟩, [3], 4⟩).2.1 3 rfl,
   (stop_behavior ⟨⟨some 3, some true⟩, [3], 4⟩).2.2.2.2.2⟩

/-- Counterexample for C8 as stated: the screenshot operation has no
output-path parameter — the request it sends carries the hardcoded
filename `screenshot.ppm`, so a caller wanting any other path (for
example `/tmp/shot.ppm`) does not get it sent over the wire. -/
theorem screenshot_fixed_filename_cex :
    (onScreenshotButtonClicked ⟨some 0, some true⟩).1
      = [⟨"screendump", [("filename", "screenshot.ppm")]⟩]
  ∧ filesWritten (onScreenshotButtonClicked ⟨some 0, some true⟩).1
      = ["screenshot.ppm"]
  ∧ ("screenshot.ppm" : String) ≠ "/tmp/shot.ppm" := by
  refine ⟨rfl, rfl, ?_⟩
  decide

/-- Claim C8 (amended): the screenshot operation takes no output path; in
any state where it acts at all (`isRunning` true) it issues exactly one
`screendump` command whose argument mapping is the hardcoded
`{filename: "screenshot.ppm"}`, and that constant is the file written. -/
theorem screenshot_hardcoded_filename (st : XqemuState)
    (h : isRunning st = true) :
    (onScreenshotButtonClicked st).1
      = [⟨"screendump", [("filename", "screenshot.ppm")]⟩]
  ∧ filesWritten (onScreenshotButtonClicked st).1 = ["screenshot.ppm"] := by
  constructor <;>
    simp [onScreenshotButtonClicked, h, screenshotCmd, filesWritten,
      List.filterMap, List.lookup]

/-- Witness for C8 (amended): at a running state. -/
theorem screenshot_hardcoded_filename_witness :
    (onScreenshotButtonClicked ⟨some 7, some true⟩).1
      = [⟨"screendump", [("filename", "screenshot.ppm")]⟩] :=
  (screenshot_hardcoded_filename ⟨some 7, some true⟩ rfl).1

/-- Claim C10 (confirmed): pressing the screenshot button while the
supervisor is Stopped (`_p = None`, as after `__init__`) is a no-op — it
sends no protocol request, asks for no file to be written, and leaves the
instance state unchanged. -/
theorem screenshot_stopped_noop (st : XqemuState) (h : st.p = none) :
    onScreenshotButtonClicked st = ([], st)
  ∧ filesWritten (onScreenshotButtonClicked st).1 = [] := by
  constructor <;> simp [onScreenshotButtonClicked, isRunning, h, filesWritten]

/-- Witness for C10: at the initial state of `Xqemu.__init__`. -/
theorem screenshot_stopped_noop_witness :
    onScreenshotButtonClicked ⟨none, none⟩ = ([], ⟨none, none⟩) :=
  (screenshot_stopped_noop ⟨none, none⟩ rfl).1

/-- Claim C9 (confirmed): the pause-button handler in state Running first
issues `query-status` (interpreting `return.status == "paused"`), then the
emulation-pause command (wire name "stop"), after which the state is
Paused; in state Paused it issues `query-status` then the continue command
("cont"), after which the state is Running; in any other state it is a
no-op issuing nothing. -/
theorem pause_toggle_behavior (st : XqemuState) (paused : Bool) :
    (superState st paused = SupState.Running →
       onPauseButtonClicked st paused
         = ([⟨"query-status", []⟩, ⟨"stop", []⟩], true)
       ∧ superState st true = SupState.Paused)
  ∧ (superState st paused = SupState.Paused →
       onPauseButtonClicked st paused
         = ([⟨"query-status", []⟩, ⟨"cont", []⟩], false)
       ∧ superState st false = SupState.Running)
  ∧ (superState st paused = SupState.Stopped →
       onPauseButtonClicked st paused = ([], paused)) := by
  obtain ⟨p, qmp⟩ := st
  cases p <;> cases paused <;>
    simp [superState, onPauseButtonClicked, isRunning, isPaused_honest,
      emuStep, reqOf]

/-- Witness for C9: the toggle at a concrete running state and at a concrete
paused state. -/
theorem pause_toggle_behavior_witness :
    onPauseButtonClicked ⟨some 0, some true⟩ false
      = ([⟨"query-status", []⟩, ⟨"stop", []⟩], true)
  ∧ onPauseButtonClicked ⟨some 0, some true⟩ true
      = ([⟨"query-status", []⟩, ⟨"cont", []⟩], false) :=
  ⟨((pause_toggle_behavior ⟨some 0, some true⟩ false).1 rfl).1,
   ((pause_toggle_behavior ⟨some 0, some true⟩ true).2.1 rfl).1⟩

/-- Lemma: `check_path` decided by `pathOk`, with the message it raises. -/
theorem check_path_eq (fs : FS) (p : String) :
    check_path fs p =
      if pathOk fs p then Except.ok () else Except.error (pathMsg p) := by
  unfold check_path pathOk
  cases h1 : fs.pathExists p <;> cases h2 : fs.isDir p <;> simp

/-- Claim C4 (amended): validation checks each active path (the four fixed
paths always, the disc path only under `dvd_present`) for existence and
non-directoryness, fails fast on the first invalid one in source order
with an error identifying the path only (the message
`File <path> could not be found!` does not name the field), and succeeds
exactly when every active path passes. -/
theorem validate_characterization (fs : FS) (s : Settings) :
    (validatePaths fs s = Except.ok () ↔
       (pathOk fs s.xqemu_path = true ∧ pathOk fs s.mcpx_path = true
        ∧ pathOk fs s.flash_path = true ∧ pathOk fs s.hdd_path = true
        ∧ (s.dvd_present = true → pathOk fs s.dvd_path = true)))
  ∧ (pathOk fs s.xqemu_path = false →
       validatePaths fs s = Except.error (pathMsg s.xqemu_path))
  ∧ (pathOk fs s.xqemu_path = true → pathOk fs s.mcpx_path = false →
       validatePaths fs s = Except.error (pathMsg s.mcpx_path))
  ∧ (pathOk fs s.xqemu_path = true → pathOk fs s.mcpx_path = true →
       pathOk fs s.flash_path = false →
       validatePaths fs s = Except.error (pathMsg s.flash_path))
  ∧ (pathOk fs s.xqemu_path = true → pathOk fs s.mcpx_path = true →
       pathOk fs s.flash_path = true → pathOk fs s.hdd_path = false →
       validatePaths fs s = Except.error (pathMsg s.hdd_path))
  ∧ (pathOk fs s.xqemu_path = true → pathOk fs s.mcpx_path = true →
       pathOk fs s.flash_path = true → pathOk fs s.hdd_path = true →
       s.dvd_present = true → pathOk fs s.dvd_path = false →
       validatePaths fs s = Except.error (pathMsg s.dvd_path)) := by
  unfold validatePaths
  simp only [check_path_eq]
  cases h1 : pathOk fs s.xqemu_path <;>
  cases h2 : pathOk fs s.mcpx_path <;>
  cases h3 : pathOk fs s.flash_path <;>
  cases h4 : pathOk fs s.hdd_path <;>
  cases h5 : s.dvd_present <;>
  cases h6 : pathOk fs s.dvd_path <;>
  simp

/-- A configuration whose xqemu binary path is the one missing file. -/
def s4a : Settings := { s0 with xqemu_path := "/bad" }

/-- A configuration whose hard-disk path is the one missing file. -/
def s4b : Settings := { s0 with hdd_path := "/bad" }

/-- Counterexample for C4 as stated: two configurations failing on
different fields (the xqemu binary path versus the hard-disk path)
produce the identical error message, so the error does not identify the
field name. -/
theorem validate_error_lacks_field_name_cex :
    validatePaths fsBad s4a = Except.error "File /bad could not be found!"
  ∧ validatePaths fsBad s4b = Except.error "File /bad could not be found!"
  ∧ pathOk fsBad s4a.xqemu_path = false
  ∧ pathOk fsBad s4b.xqemu_path = true
  ∧ pathOk fsBad s4b.hdd_path = false :=
  ⟨rfl, rfl, rfl, rfl, rfl⟩

/-- Witness for C4 (amended): a failing and a succeeding validation at
concrete inputs. -/
theorem validate_characterization_witness :
    validatePaths fsBad s4b = Except.error (pathMsg s4b.hdd_path)
  ∧ validatePaths fsAll s0 = Except.ok () := by
  constructor
  · exact (validate_characterization fsBad s4b).2.2.2.2.1 rfl rfl rfl rfl
  · exact (validate_characterization fsAll s0).1.mpr
      ⟨rfl, rfl, rfl, rfl, fun _ => rfl⟩

/-- Counterexample for C2 as stated: with a never-reachable listener the
retry loop makes 6 connection attempts (counter values 0 through 5), not
maxAttempts = 5. -/
theorem connect_six_attempts_cex :
    connectLoop (fun _ => Except.error "refused")
      = ⟨6, 5, Except.error "refused"⟩
  ∧ (6 : Nat) ≠ 5 := by
  exact ⟨connectLoop_all_fail _ (fun _ => "refused") (fun k _ => rfl),
    by decide⟩

/-- Claim C2 (amended): no delay precedes the first attempt and one fixed
one-second delay precedes each subsequent attempt; if the listener first
becomes reachable on the Nth attempt with N ≤ 6 (zero-based counter
n = N - 1 ≤ 5) the loop succeeds after exactly N attempts and N - 1
delays; if the listener is never reachable, it fails after exactly 6
attempts and 5 delays, surfacing the last attempt's underlying error. -/
theorem connect_retry_behavior (attempt : Nat → Except String Unit) :
    (∀ n, n ≤ 5 → (∀ k, k < n → ∃ e, attempt k = Except.error e) →
       attempt n = Except.ok () →
       connectLoop attempt = ⟨n + 1, n, Except.ok n⟩)
  ∧ (∀ errs : Nat → String,
       (∀ k, k ≤ 5 → attempt k = Except.error (errs k)) →
       connectLoop attempt = ⟨6, 5, Except.error (errs 5)⟩) :=
  ⟨fun n hn hf hok => connectLoop_first_ok attempt n hn hf hok,
   fun errs h => connectLoop_all_fail attempt errs h⟩

/-- Witness for C2 (amended): a listener reachable only on the third
attempt yields success after 3 attempts and exactly 2 delays. -/
theorem connect_retry_behavior_witness :
    connectLoop
        (fun k => if k < 2 then Except.error "refused" else Except.ok ())
      = ⟨3, 2, Except.ok 2⟩ :=
  (connect_retry_behavior
      (fun k => if k < 2 then Except.error "refused" else Except.ok ())).1
    2 (by omega)
    (fun k hk => ⟨"refused", by interval_cases k <;> rfl⟩)
    rfl

/-- Counterexample for C1 as stated: with every configured path valid, a
successful spawn, and a control endpoint that never becomes reachable,
`start` surfaces the connection failure while `_p` still holds the
spawned process: `isRunning` reports true after the failed start and the
child is still alive — the handle was not torn down. -/
theorem start_connect_failure_retains_handle_cex :
    (Xqemu.start wConnFail s0 initialApp).2
      = Except.error (StartErr.connectFail "refused")
  ∧ isRunning (Xqemu.start wConnFail s0 initialApp).1.inst = true
  ∧ (Xqemu.start wConnFail s0 initialApp).1.liveProcs = [0] := by
  have hc : (connectLoop wConnFail.connAttempt).result
      = Except.error "refused" := by
    rw [connectLoop_all_fail wConnFail.connAttempt (fun _ => "refused")
      (fun k _ => rfl)]
  rw [start_spawned_connect_fail wConnFail s0 initialApp "refused" rfl rfl hc]
  exact ⟨rfl, rfl, rfl⟩

/-- Claim C1 (amended): a `start` from the Stopped state that fails during
validation or spawn leaves the state exactly as it was — no process
handle or connection is retained and `isRunning` stays false; but a
`start` that fails because the control endpoint never becomes reachable
retains the spawned process handle (and an unconnected control object),
so `isRunning` reports true after the failed start. -/
theorem start_failure_resource_states (w : World) (s : Settings)
    (a : AppState) (h : a.inst.p = none) :
    (∀ m, (Xqemu.start w s a).2 = Except.error (StartErr.validation m) →
       (Xqemu.start w s a).1 = a
       ∧ isRunning (Xqemu.start w s a).1.inst = false)
  ∧ ((Xqemu.start w s a).2 = Except.error StartErr.spawnFail →
       (Xqemu.start w s a).1 = a
       ∧ isRunning (Xqemu.start w s a).1.inst = false)
  ∧ (∀ m, (Xqemu.start w s a).2 = Except.error (StartErr.connectFail m) →
       (Xqemu.start w s a).1.inst.p = some a.nextPid
       ∧ (Xqemu.start w s a).1.inst.qmp = some false
       ∧ isRunning (Xqemu.start w s a).1.inst = true
       ∧ (Xqemu.start w s a).1.liveProcs = a.liveProcs ++ [a.nextPid]) := by
  cases hv : validatePaths w.fs s with
  | error m =>
    have he := start_validation_error w s a m hv
    refine ⟨fun m' hm' => ?_, fun hm' => ?_, fun m' hm' => ?_⟩ <;>
      simp_all [he, isRunning, h]
  | ok u =>
    cases u
    cases hs : w.spawnOk (buildCmd s) with
    | false =>
      have he := start_spawn_fail w s a hv hs
      refine ⟨fun m' hm' => ?_, fun hm' => ?_, fun m' hm' => ?_⟩ <;>
        simp_all [he, isRunning, h]
    | true =>
      cases hc : (connectLoop w.connAttempt).result with
      | ok k =>
        have he := start_spawned_connected w s a k hv hs hc
        refine ⟨fun m' hm' => ?_, fun hm' => ?_, fun m' hm' => ?_⟩ <;>
          simp_all [he, isRunning]
      | error e2 =>
        have he := start_spawned_connect_fail w s a e2 hv hs hc
        refine ⟨fun m' hm' => ?_, fun hm' => ?_, fun m' hm' => ?_⟩ <;>
          simp_all [he, isRunning]

/-- Witness for C1 (amended): the connect-failure branch at concrete
inputs, with its hypotheses discharged by evaluation. -/
theorem start_failure_resource_states_witness :
    (Xqemu.start wConnFail s0 initialApp).1.inst.p = some 0
  ∧ isRunning (Xqemu.start wConnFail s0 initialApp).1.inst = true := by
  have hc : (connectLoop wConnFail.connAttempt).result
      = Except.error "refused" := by
    rw [connectLoop_all_fail wConnFail.connAttempt (fun _ => "refused")
      (fun k _ => rfl)]
  have h2 := (start_failure_resource_states wConnFail s0 initialApp rfl).2.2
    "refused"
    (by rw [start_spawned_connect_fail wConnFail s0 initialApp "refused"
        rfl rfl hc])
  exact ⟨h2.1, h2.2.2.1⟩

/-- An application state already owning process 0 (Running). -/
def aRunning : AppState := ⟨⟨some 0, some true⟩, [0], 1⟩

/-- Counterexample for C5 as stated: calling `Xqemu.start` directly while a
process is already owned is not rejected — it succeeds and spawns a
second child, leaving two processes alive. -/
theorem start_unguarded_second_spawn_cex :
    (Xqemu.start wOk s0 aRunning).2 = Except.ok ()
  ∧ (Xqemu.start wOk s0 aRunning).1.liveProcs = [0, 1]
  ∧ (Xqemu.start wOk s0 aRunning).1.liveProcs.length = 2 := by
  have hc : (connectLoop wOk.connAttempt).result = Except.ok 0 := by
    rw [connectLoop_first_ok wOk.connAttempt 0 (by omega)
      (fun k hk => (Nat.not_lt_zero k hk).elim) rfl]
  rw [start_spawned_connected wOk s0 aRunning 0 rfl rfl hc]
  exact ⟨rfl, rfl, rfl⟩

/-- The process-ownership invariant maintained by the UI-driven lifecycle:
either no handle is owned and no child is alive, or the single owned
handle holds the pid of the single live child. -/
def ProcInv (a : AppState) : Prop :=
  (a.inst.p = none ∧ a.liveProcs = [])
  ∨ (∃ pid, a.inst.p = some pid ∧ a.liveProcs = [pid])

/-- One button event preserves the process-ownership invariant. -/
theorem procInv_step (w : World) (s : Settings) (e : Event) (a : AppState)
    (h : ProcInv a) : ProcInv (step w s e a) := by
  cases e with
  | runClick =>
    rcases h with ⟨hp, hl⟩ | ⟨pid, hp, hl⟩
    · have hrun : isRunning a.inst = false := by simp [isRunning, hp]
      simp only [step, hrun, Bool.false_eq_true, if_false]
      cases hv : validatePaths w.fs s with
      | error m =>
        rw [start_validation_error w s a m hv]
        exact Or.inl ⟨hp, hl⟩
      | ok u =>
        cases u
        cases hs : w.spawnOk (buildCmd s) with
        | false =>
          rw [start_spawn_fail w s a hv hs]
          exact Or.inl ⟨hp, hl⟩
        | true =>
          cases hc : (connectLoop w.connAttempt).result with
          | ok k =>
            rw [start_spawned_connected w s a k hv hs hc]
            exact Or.inr ⟨a.nextPid, rfl, by simp [hl]⟩
          | error e2 =>
            rw [start_spawned_connect_fail w s a e2 hv hs hc]
            exact Or.inr ⟨a.nextPid, rfl, by simp [hl]⟩
    · have hrun : isRunning a.inst = true := by simp [isRunning, hp]
      simp only [step, hrun, if_true]
      unfold Xqemu.stop
      rw [hp]
      exact Or.inl ⟨rfl, by simp [hl]⟩
  | pauseClick => exact h
  | screenshotClick => exact h
  | restartClick => exact h

/-- Claim C5 (amended): in the UI-driven lifecycle — where the run-button
handler calls `stop()` rather than `start()` whenever a process is owned
— every reachable application state has at most one live child process.
(`Xqemu.start` itself carries no guard; see the counterexample.) -/
theorem at_most_one_live_process (a : AppState) (h : Reachable a) :
    a.liveProcs.length ≤ 1 := by
  have hinv : ProcInv a := by
    induction h with
    | init => exact Or.inl ⟨rfl, rfl⟩
    | next w s e a' ha ih => exact procInv_step w s e a' ih
  rcases hinv with ⟨_, hl⟩ | ⟨pid, _, hl⟩ <;> simp [hl]

/-- Witness for C5 (amended): the state reached by one run-button press
from the initial state has at most one live child. -/
theorem at_most_one_live_process_witness :
    (step wOk s0 Event.runClick initialApp).liveProcs.length ≤ 1 :=
  at_most_one_live_process _
    (Reachable.next wOk s0 Event.runClick initialApp Reachable.init)
